import Mathlib

/-!
Verification of the airavat-desktop orchestration layer.

This file gives a shallow embedding, in Lean, of the upload / processing /
download orchestration core of the airavat-desktop repository:

  * the backend locator and transport client (`src/main/backend-processor.js`,
    class `BackendProcessor`),
  * the privileged host-process operation surface (`src/main/main.js`,
    the `ipcMain.handle` registrations),
  * the model-asset downloader (`src/main/model-manager.js`, class
    `ModelManager`),
  * the renderer-side UI orchestrator (`src/renderer/script.js`), and
  * the static configuration (`src/config/backend-config.js`).

Conventions of the embedding:

  * network I/O is represented by oracles: a health probe is a function
    `String → Nat → ProbeOutcome` (url and timeout in, outcome out), and a
    transport call is an `Except String` value supplied by the caller;
  * JavaScript numbers that the code treats as fractional thresholds are
    modelled as exact rationals, byte counts and timeouts as naturals;
  * a multipart attachment records how the payload is read: a
    `FormPart.fileStream` is a `fs.createReadStream` attachment (chunked
    reads from disk), a `FormPart.fileBuffer` would be a wholesale in-memory
    buffer (the embedded code never constructs one);
  * fallible code returns `Except` / `Option` instead of throwing.
-/

namespace Airavat

/-! ## Configuration — `src/config/backend-config.js` -/

namespace BackendConfig

def LOCAL_URL : String := "http://localhost:8000"

def RENDER_URL : String := "https://airavat-backend-zlgv.onrender.com"

def HEALTH : String := "/api/health"

def DOWNLOAD_BATCH : String := "/api/download-batch/:filename"

def TIMEOUT : Nat := 30000

def MAX_FILE_SIZE : Nat := 50 * 1024 * 1024

def MAX_ZIP_SIZE : Nat := 200 * 1024 * 1024 * 1024

end BackendConfig

/-! ## Backend locator — `BackendProcessor.initialize` -/

/-- Outcome of one axios GET health probe: `ok status` when the request
resolved with the given HTTP status, `err` when it threw (connection refused,
timeout, non-2xx rejection). -/
inductive ProbeOutcome where
  | ok (status : Nat)
  | err (msg : String)
deriving DecidableEq

/-- The selection test the locator applies to a probe outcome: the source
accepts a candidate exactly when `response.status === 200`. -/
def probeIsSuccess : ProbeOutcome → Bool
  | .ok status => status == 200
  | .err _ => false

/-- Connection state owned by `BackendProcessor`: `this.baseUrl` and
`this.isInitialized` (the latter named `isInit` here). -/
structure ProcState where
  baseUrl : Option String
  isInit : Bool
deriving DecidableEq

/-- The configured candidate list, in priority order: remote first, then the
local fallback (`const urls = [BACKEND_CONFIG.RENDER_URL, BACKEND_CONFIG.LOCAL_URL]`). -/
def candidateUrls : List String := [BackendConfig.RENDER_URL, BackendConfig.LOCAL_URL]

/-- The `for (const url of urls)` loop body of `BackendProcessor.initialize`:
probe each url in order with the configured timeout and stop at the first
outcome with status 200. -/
def resolveLoop (probe : String → Nat → ProbeOutcome) : List String → Option String
  | [] => none
  | url :: rest =>
    if probeIsSuccess (probe url BackendConfig.TIMEOUT) then some url
    else resolveLoop probe rest

/-- The probes the loop actually issues, in order, each paired with the
timeout passed to axios.  The list stops right after the first successful
candidate: the loop `return`s and later candidates are never contacted. -/
def probesMade (probe : String → Nat → ProbeOutcome) : List String → List (String × Nat)
  | [] => []
  | url :: rest =>
    (url, BackendConfig.TIMEOUT) ::
      (if probeIsSuccess (probe url BackendConfig.TIMEOUT) then []
       else probesMade probe rest)

/-- Embeds `BackendProcessor.initialize`: run the sequential probe loop over
the configured candidates; on a success cache the chosen base url and set the
connected flag, otherwise fail with the no-backend-reachable error. -/
def resolveBackend (probe : String → Nat → ProbeOutcome) : Except String ProcState :=
  match resolveLoop probe candidateUrls with
  | some url => .ok { baseUrl := some url, isInit := true }
  | none => .error "Could not connect to any backend server"

/-! ## Transport client — `BackendProcessor` submission and download calls -/

/-- Value of a text field appended to a multipart form (the source
stringifies these with `String(...)`; we keep the underlying value). -/
inductive FieldVal where
  | num (q : ℚ)
  | natv (n : Nat)
  | boolv (b : Bool)
  | str (s : String)
deriving DecidableEq

/-- One part of a multipart form.  `fileStream path` is an attachment built
with `fs.createReadStream(path)` — the payload is read from disk in chunks.
`fileBuffer` would be a wholesale in-memory attachment (e.g. from
`fs.readFile`); the embedded code never builds one. -/
inductive FormPart where
  | field (v : FieldVal)
  | fileStream (path : String)
  | fileBuffer (bytes : List Nat)
deriving DecidableEq

/-- Whether a form part carries a wholesale in-memory buffer. -/
def isBufferPart : FormPart → Bool
  | .fileBuffer _ => true
  | _ => false

/-- An outbound HTTP request as the transport client assembles it: target
path, multipart parts in append order, and the axios timeout in ms. -/
structure HttpRequest where
  endpoint : String
  parts : List (String × FormPart)
  timeoutMs : Nat
deriving DecidableEq

/-- The duck-typed option bag accepted by the `BackendProcessor` methods.
`otype` is the source's `options.type` (`type` is reserved in Lean).  `none`
models an absent / `undefined` field. -/
structure JsOptions where
  otype : Option String := none
  processingType : Option String := none
  confidence_threshold : Option ℚ := none
  siamese_threshold : Option ℚ := none
  similarity_threshold : Option ℚ := none
  max_workers : Option Nat := none
  enable_yolo : Option Bool := none
  enable_siamese : Option Bool := none
deriving DecidableEq

/-- JavaScript `x || d` for a rational-valued option field: an absent field
or a falsy value (`0`) yields the default. -/
def jsOrQ (v : Option ℚ) (d : ℚ) : ℚ :=
  match v with
  | none => d
  | some x => if x = 0 then d else x

/-- JavaScript `x || d` for a natural-valued option field. -/
def jsOrN (v : Option Nat) (d : Nat) : Nat :=
  match v with
  | none => d
  | some x => if x = 0 then d else x

/-- JavaScript `x || d` for a string-valued option field (`""` is falsy). -/
def jsOrS (v : Option String) (d : String) : String :=
  match v with
  | none => d
  | some s => if s = "" then d else s

/-- JavaScript `x !== false` on an optional boolean flag. -/
def jsNeqFalse (v : Option Bool) : Bool :=
  match v with
  | some false => false
  | _ => true

/-- `const processingType = options.type || options.processingType || 'yolo'`. -/
def effectiveType (o : JsOptions) : String :=
  jsOrS o.otype (jsOrS o.processingType "yolo")

/-- Detection-route aliases tested by the source's if-chain. -/
def isYoloType (t : String) : Bool :=
  t == "yolo" || t == "yolo-detect" || t == "yolo-only"

/-- Comparison-route aliases tested by the source's if-chain. -/
def isSiameseType (t : String) : Bool :=
  t == "compare-dataset" || t == "siamese" || t == "siamese-only"

/-- Combined-route alias. -/
def isCombinedType (t : String) : Bool := t == "combined"

/-- Identity-grouping route aliases. -/
def isIndividualType (t : String) : Bool :=
  t == "individual-elephants" || t == "individual_elephants"

/-- The endpoint and option fields `BackendProcessor.processBatch` appends
for each processing type (the if-chain at the heart of the method); fails
with the unknown-processing-type error outside the closed enumeration. -/
def batchRouteFields (t : String) (o : JsOptions) :
    Except String (String × List (String × FormPart)) :=
  if isYoloType t then
    .ok ("/api/batch-yolo",
      [("confidence_threshold", .field (.num (jsOrQ o.confidence_threshold 0.5))),
       ("max_workers", .field (.natv (jsOrN o.max_workers 4)))])
  else if isSiameseType t then
    .ok ("/api/batch-siamese",
      [("siamese_threshold", .field (.num (jsOrQ o.siamese_threshold 0.85))),
       ("max_workers", .field (.natv (jsOrN o.max_workers 4)))])
  else if isCombinedType t then
    .ok ("/api/batch-combined",
      [("confidence_threshold", .field (.num (jsOrQ o.confidence_threshold 0.5))),
       ("siamese_threshold", .field (.num (jsOrQ o.siamese_threshold 0.85))),
       ("enable_yolo_detection", .field (.boolv (jsNeqFalse o.enable_yolo))),
       ("enable_siamese_comparison", .field (.boolv (jsNeqFalse o.enable_siamese))),
       ("max_workers", .field (.natv (jsOrN o.max_workers 4)))])
  else if isIndividualType t then
    .ok ("/api/batch-individual-elephants",
      [("confidence_threshold", .field (.num (jsOrQ o.confidence_threshold 0.5))),
       ("similarity_threshold", .field (.num (jsOrQ o.similarity_threshold 0.85))),
       ("max_workers", .field (.natv (jsOrN o.max_workers 4)))])
  else .error ("Unknown processing type: " ++ t)

/-- Embeds `BackendProcessor.processBatch`'s request assembly: every
existing file is attached as an `images` read stream, the route fields
follow, and the call runs with a 10x timeout.  `present` is the
`fs.pathExists` oracle. -/
def processBatchRequest (present : String → Bool) (filePaths : List String)
    (o : JsOptions) : Except String HttpRequest :=
  match batchRouteFields (effectiveType o) o with
  | .error e => .error e
  | .ok (ep, fields) =>
    .ok { endpoint := ep,
          parts := (filePaths.filter present).map
              (fun p => ("images", FormPart.fileStream p)) ++ fields,
          timeoutMs := BackendConfig.TIMEOUT * 10 }

/-- The endpoint and per-route option fields `BackendProcessor.processBatchZip`
appends (its if-chain omits `max_workers`, which the method appends once
after the chain). -/
def zipRouteFields (t : String) (o : JsOptions) :
    Except String (String × List (String × FormPart)) :=
  if isYoloType t then
    .ok ("/api/batch-yolo",
      [("confidence_threshold", .field (.num (jsOrQ o.confidence_threshold 0.5)))])
  else if isSiameseType t then
    .ok ("/api/batch-siamese",
      [("siamese_threshold", .field (.num (jsOrQ o.siamese_threshold 0.85)))])
  else if isCombinedType t then
    .ok ("/api/batch-combined",
      [("confidence_threshold", .field (.num (jsOrQ o.confidence_threshold 0.5))),
       ("siamese_threshold", .field (.num (jsOrQ o.siamese_threshold 0.85))),
       ("enable_yolo_detection", .field (.boolv (jsNeqFalse o.enable_yolo))),
       ("enable_siamese_comparison", .field (.boolv (jsNeqFalse o.enable_siamese)))])
  else if isIndividualType t then
    .ok ("/api/batch-individual-elephants",
      [("confidence_threshold", .field (.num (jsOrQ o.confidence_threshold 0.5))),
       ("similarity_threshold", .field (.num (jsOrQ o.similarity_threshold 0.85)))])
  else .error ("Unknown processing type: " ++ t)

/-- Embeds `BackendProcessor.processBatchZip`'s request assembly: verify the
archive exists, attach it first as a `zip_file` read stream, append the
per-route fields and then `max_workers`, and run with a 20x timeout. -/
def processBatchZipRequest (present : String → Bool) (zipFilePath : String)
    (o : JsOptions) : Except String HttpRequest :=
  if !present zipFilePath then .error "ZIP file not found"
  else
    match zipRouteFields (effectiveType o) o with
    | .error e => .error e
    | .ok (ep, fields) =>
      .ok { endpoint := ep,
            parts := ("zip_file", FormPart.fileStream zipFilePath) ::
              (fields ++ [("max_workers", .field (.natv (jsOrN o.max_workers 4)))]),
            timeoutMs := BackendConfig.TIMEOUT * 20 }

/-- Embeds the request of `BackendProcessor.prepareDownloadPackage`: a JSON
POST (the descriptor body is opaque here) with a 15x timeout. -/
def prepareDownloadPackageRequest (_downloadRequest : String) : HttpRequest :=
  { endpoint := "/api/prepare-download-package", parts := [],
    timeoutMs := BackendConfig.TIMEOUT * 15 }

/-- Embeds the GET request of `BackendProcessor.downloadFileToDownloads`:
stream the prepared package with a 10x timeout. -/
def downloadPreparedPackageRequest (_zipPath _filename : String) : HttpRequest :=
  { endpoint := "/api/download-prepared-package", parts := [],
    timeoutMs := BackendConfig.TIMEOUT * 10 }

/-- Embeds the GET request of `BackendProcessor.downloadBatchResults`:
stream a legacy batch artifact with a 5x timeout. -/
def downloadBatchResultsRequest (filename : String) : HttpRequest :=
  { endpoint := BackendConfig.DOWNLOAD_BATCH ++ "/" ++ filename, parts := [],
    timeoutMs := BackendConfig.TIMEOUT * 5 }

/-- Embeds the GET request of `ModelManager.downloadFile` (model-asset
downloader, `src/main/model-manager.js`): a 3x timeout. -/
def modelAssetDownloadRequest (url : String) : HttpRequest :=
  { endpoint := url, parts := [], timeoutMs := BackendConfig.TIMEOUT * 3 }

/-! ## Privileged host process — the `ipcMain.handle` operation surface -/

/-- The structured value every host-process operation returns to the UI:
`{success: true, data}` or `{success: false, error}`. -/
structure IpcResp where
  success : Bool
  data : Option String
  error : Option String
deriving DecidableEq

/-- The success envelope `{ success: true, data }`. -/
def ipcOk (d : String) : IpcResp := { success := true, data := some d, error := none }

/-- The failure envelope `{ success: false, error }`. -/
def ipcFail (e : String) : IpcResp := { success := false, data := none, error := some e }

/-- The error raised (and then caught into the failure envelope) when a
guarded handler finds no connected backend. -/
def notConnectedMsg : String := "Backend not connected. Please restart the app."

/-- The guard `!backendProcessor || !backendProcessor.isInitialized` used at
the top of the guarded handlers: `none` models a never-constructed
`backendProcessor`. -/
def connected (proc : Option ProcState) : Bool :=
  match proc with
  | none => false
  | some st => st.isInit

/-- Embeds `ipcMain.handle('process-file')`: validate the connection, then
perform the transport call (supplied as an `Except` oracle) and wrap its
outcome in the structured envelope.  The boolean records whether the
transport layer was reached. -/
def handleProcessFile (proc : Option ProcState) (transport : Except String String) :
    IpcResp × Bool :=
  if connected proc then
    match transport with
    | .ok d => (ipcOk d, true)
    | .error e => (ipcFail e, true)
  else (ipcFail notConnectedMsg, false)

/-- Embeds `ipcMain.handle('process-batch')` (same guard and envelope;
progress forwarding is orthogonal to the error boundary). -/
def handleProcessBatch (proc : Option ProcState) (transport : Except String String) :
    IpcResp × Bool :=
  if connected proc then
    match transport with
    | .ok d => (ipcOk d, true)
    | .error e => (ipcFail e, true)
  else (ipcFail notConnectedMsg, false)

/-- Embeds `ipcMain.handle('process-zip')`. -/
def handleProcessZip (proc : Option ProcState) (transport : Except String String) :
    IpcResp × Bool :=
  if connected proc then
    match transport with
    | .ok d => (ipcOk d, true)
    | .error e => (ipcFail e, true)
  else (ipcFail notConnectedMsg, false)

/-- Embeds `ipcMain.handle('prepare-download-package')`: validate the
connection, then return the method's own already-structured result
(`BackendProcessor.prepareDownloadPackage` catches its transport errors
itself). -/
def handlePrepareDownloadPackage (proc : Option ProcState) (methodResult : IpcResp) :
    IpcResp × Bool :=
  if connected proc then (methodResult, true)
  else (ipcFail notConnectedMsg, false)

/-- The TypeError message produced when the handler dereferences a null
`backendProcessor`. -/
def nullDerefMsg : String := "Cannot read properties of null"

/-- Embeds `ipcMain.handle('download-file-to-downloads')`: unlike the other
handlers it performs no connection check — it calls
`backendProcessor.downloadFileToDownloads` directly (which also never checks
`isInitialized`), so with a constructed-but-unconnected processor the
transport call is still issued.  Only a null processor short-circuits, via a
caught TypeError. -/
def handleDownloadFileToDownloads (proc : Option ProcState) (methodResult : IpcResp) :
    IpcResp × Bool :=
  match proc with
  | none => (ipcFail nullDerefMsg, false)
  | some _ => (methodResult, true)

/-! ## Upload progress events -/

/-- The ephemeral progress message assembled by the upload-progress
callbacks. -/
structure ProgressEvent where
  stage : String
  progress : Nat
  loaded : Nat
  total : Nat
  current : Nat
  currentFile : String
deriving DecidableEq

/-- `Math.round((progressEvent.loaded * 100) / progressEvent.total)` in exact
arithmetic: for a nonnegative argument `Math.round x = ⌊x + 1/2⌋`, so the
percent is `⌊(200·loaded + total) / (2·total)⌋`. -/
def uploadPercent (loaded total : Nat) : Nat :=
  (loaded * 100 * 2 + total) / (2 * total)

/-- The `onUploadProgress` callback of `BackendProcessor.processBatch`. -/
def onUploadProgressBatch (loaded total : Nat) : ProgressEvent :=
  { stage := "Uploading files", progress := uploadPercent loaded total,
    loaded := loaded, total := total, current := 0, currentFile := "Uploading..." }

/-- The `onUploadProgress` callback of `BackendProcessor.processBatchZip`. -/
def onUploadProgressZip (loaded total : Nat) : ProgressEvent :=
  { stage := "Uploading ZIP file", progress := uploadPercent loaded total,
    loaded := loaded, total := total, current := 0, currentFile := "Processing ZIP..." }

/-! ## UI orchestrator — `src/renderer/script.js` -/

/-- A client-side record for one user-chosen input (`selectedFiles` entry).
`ftype` is the source's `type` field (`"zip"` or `"image"`);
`hasFileObject` records whether a browser `File` object is bound (plain-page
selections) as opposed to only an Electron filesystem path. -/
structure SelectedFile where
  name : String
  ftype : String
  path : String
  hasFileObject : Bool
deriving DecidableEq

/-- What `processWithElectron` submits over the UI bridge: the single
archive path via `processZip`, the image paths via `processBatch`, or the
no-valid-files error. -/
inductive ElectronDispatch where
  | viaZip (zipPath : String)
  | viaBatch (paths : List String)
  | noValidFiles (msg : String)
deriving DecidableEq

/-- Embeds `processWithElectron`'s file routing (hosted dispatch path, with
the preload-exposed bridge methods available): any selected archive wins and
only `zipFiles[0].path` is submitted; images are submitted only when no
archive is selected. -/
def processWithElectron (files : List SelectedFile) : ElectronDispatch :=
  let zipFiles := files.filter (fun f => f.ftype == "zip")
  let imageFiles := files.filter (fun f => f.ftype == "image")
  match zipFiles with
  | z :: _ => .viaZip z.path
  | [] =>
    match imageFiles with
    | [] => .noValidFiles "No valid files selected or Electron API methods not available"
    | _ :: _ => .viaBatch (imageFiles.map (fun f => f.path))

/-- One entry of the browser `FormData` assembled by `processWithWebAPI`:
a text parameter or an attached `File` upload. -/
inductive WebPart where
  | param (v : FieldVal)
  | upload (fname : String)
deriving DecidableEq

/-- The options `processFiles` reads from the sliders and passes to both
dispatch paths (always defined: a missing control falls back to the
renderer defaults). -/
structure WebOptions where
  confidence_threshold : ℚ
  siamese_threshold : ℚ
  similarity_threshold : ℚ
  max_workers : Nat
deriving DecidableEq

/-- The direct same-origin POST assembled by `processWithWebAPI`. -/
structure WebRequest where
  endpoint : String
  parts : List (String × WebPart)
deriving DecidableEq

/-- The renderer's `switch (processingType)` endpoint table; `none` models
the thrown unknown-processing-type error. -/
def webEndpointFor (pt : String) : Option String :=
  if pt == "yolo" then some "/api/batch-yolo"
  else if pt == "siamese" then some "/api/batch-siamese"
  else if pt == "combined" then some "/api/batch-combined"
  else if pt == "individual_elephants" then some "/api/batch-individual-elephants"
  else none

/-- The four parameters `processWithWebAPI` appends before any file. -/
def webParamParts (o : WebOptions) : List (String × WebPart) :=
  [("confidence_threshold", .param (.num o.confidence_threshold)),
   ("siamese_threshold", .param (.num o.siamese_threshold)),
   ("similarity_threshold", .param (.num o.similarity_threshold)),
   ("max_workers", .param (.natv o.max_workers))]

/-- Embeds `processWithWebAPI` (plain-page dispatch path): resolve the
endpoint, append the parameters, then attach either the first selected
archive's `File` object as `zip_file` — images are not attached — or, when
no archive is selected, every image that has a `File` object. -/
def processWithWebAPI (pt : String) (o : WebOptions) (files : List SelectedFile) :
    Except String WebRequest :=
  match webEndpointFor pt with
  | none => .error ("Unknown processing type: " ++ pt)
  | some ep =>
    let zipFiles := files.filter (fun f => f.ftype == "zip")
    let imageFiles := files.filter (fun f => f.ftype == "image")
    match zipFiles with
    | z :: _ =>
      if z.hasFileObject then
        .ok { endpoint := ep,
              parts := webParamParts o ++ [("zip_file", .upload z.name)] }
      else .error "ZIP file object not available for web upload"
    | [] =>
      match imageFiles with
      | [] => .error "No valid files found for processing"
      | _ :: _ =>
        .ok { endpoint := ep,
              parts := webParamParts o ++
                (imageFiles.filter (fun f => f.hasFileObject)).map
                  (fun f => ("images", WebPart.upload f.name)) }

/-- The renderer session state that `processFiles` reads and mutates. -/
structure UiState where
  selectedFiles : List SelectedFile
  isProcessing : Bool
  appReady : Bool
  offlineMode : Bool
  lastResults : Option String
  errorShown : Option String
deriving DecidableEq

/-- Outcome of the awaited dispatch inside `processFiles`: the call threw, or
it returned `{success, error?, data}`, or it returned nothing usable. -/
inductive DispatchOutcome where
  | threw (msg : String)
  | res (success : Bool) (error : Option String) (data : String)
  | noResult
deriving DecidableEq

/-- The message `processFiles` raises for a failing outcome:
`result && result.error ? result.error : 'Processing failed with unknown error'`
(note a present-but-empty error string is falsy and also falls back). -/
def failureMsg : DispatchOutcome → Option String
  | .threw m => some m
  | .res false err _ => some (jsOrS err "Processing failed with unknown error")
  | .res true _ _ => none
  | .noResult => some "Processing failed with unknown error"

/-- Embeds `processFiles`: the entry guard
`if (!selectedFiles.length || isProcessing || !appReady || offlineMode) return`
rejects the call with no state change; otherwise the processing cycle runs
(the transient `isProcessing = true` window is reported by the boolean), the
success path stores the last result, every failure path shows
`'Processing failed: ' + message`, and the `finally` clause clears the
processing flag.  The selected-file set is never touched. -/
def processFiles (s : UiState) (o : DispatchOutcome) : UiState × Bool :=
  if s.selectedFiles.length == 0 || s.isProcessing || !s.appReady || s.offlineMode then
    (s, false)
  else
    match o with
    | .res true _ d =>
      ({ s with isProcessing := false, lastResults := some d }, true)
    | .res false err _ =>
      ({ s with isProcessing := false,
                errorShown := some ("Processing failed: " ++
                  jsOrS err "Processing failed with unknown error") }, true)
    | .threw m =>
      ({ s with isProcessing := false,
                errorShown := some ("Processing failed: " ++ m) }, true)
    | .noResult =>
      ({ s with isProcessing := false,
                errorShown := some ("Processing failed: " ++
                  "Processing failed with unknown error") }, true)

/-! ## Download filename de-duplication — `BackendProcessor.downloadFileToDownloads` -/

/-- Index of the last `'.'` in a character list (if any). -/
def lastDotIdx (cs : List Char) : Option Nat :=
  match cs.reverse.findIdx? (fun c => c == '.') with
  | none => none
  | some j => some (cs.length - 1 - j)

/-- Embeds `path.extname`: the substring from the last dot, or `""` when
there is no dot or the name starts with its only dot (a dotfile). -/
def extname (f : String) : String :=
  match lastDotIdx f.data with
  | none => ""
  | some 0 => ""
  | some i => ⟨f.data.drop i⟩

/-- Embeds `path.basename(filename, ext)` for `ext = extname filename`: the
name with its extension stripped. -/
def basenameNoExt (f : String) : String :=
  ⟨f.data.take (f.data.length - (extname f).data.length)⟩

/-- The collision-avoiding candidate `` `${name}_${counter}${ext}` ``. -/
def dedupCandidate (name ext : String) (counter : Nat) : String :=
  name ++ "_" ++ toString counter ++ ext

/-- The `while (await fs.pathExists(finalPath))` loop, with explicit fuel
(the JS loop relies on the directory being finite for termination exactly as
the fuel does). -/
def dedupLoop (existing : List String) (name ext : String) : Nat → Nat → Option String
  | _counter, 0 => none
  | counter, fuel + 1 =>
    if dedupCandidate name ext counter ∈ existing then
      dedupLoop existing name ext (counter + 1) fuel
    else some (dedupCandidate name ext counter)

/-- The final on-disk name `downloadFileToDownloads` writes to: the
requested filename if free, otherwise `name_n.ext` for the first free
`n ≥ 1`. -/
def finalDownloadName (existing : List String) (filename : String) (fuel : Nat) :
    Option String :=
  if filename ∈ existing then
    dedupLoop existing (basenameNoExt filename) (extname filename) 1 fuel
  else some filename

end Airavat

namespace Airavat

/-- Claim C1: backend locator resolution probes the candidate base urls
strictly sequentially in configured priority order (remote url first, then
local url), each probe carrying the configured timeout; it selects and caches
the first candidate whose probe returns the success status, never probing a
later candidate after a success, and if no candidate succeeds it fails with
the no-backend-reachable error instead of returning a connected state.  The
probes issued always form an in-order prefix of the configured list. -/
theorem backend_locator_sequential_first_success
    (probe : String → Nat → ProbeOutcome) :
    (probeIsSuccess (probe BackendConfig.RENDER_URL BackendConfig.TIMEOUT) = true →
      resolveBackend probe = .ok { baseUrl := some BackendConfig.RENDER_URL, isInit := true } ∧
      probesMade probe candidateUrls = [(BackendConfig.RENDER_URL, BackendConfig.TIMEOUT)]) ∧
    (probeIsSuccess (probe BackendConfig.RENDER_URL BackendConfig.TIMEOUT) = false →
      probeIsSuccess (probe BackendConfig.LOCAL_URL BackendConfig.TIMEOUT) = true →
      resolveBackend probe = .ok { baseUrl := some BackendConfig.LOCAL_URL, isInit := true } ∧
      probesMade probe candidateUrls =
        [(BackendConfig.RENDER_URL, BackendConfig.TIMEOUT),
         (BackendConfig.LOCAL_URL, BackendConfig.TIMEOUT)]) ∧
    (probeIsSuccess (probe BackendConfig.RENDER_URL BackendConfig.TIMEOUT) = false →
      probeIsSuccess (probe BackendConfig.LOCAL_URL BackendConfig.TIMEOUT) = false →
      resolveBackend probe = .error "Could not connect to any backend server") ∧
    (∃ k, probesMade probe candidateUrls =
      (candidateUrls.take k).map (fun u => (u, BackendConfig.TIMEOUT))) := by
  refine ⟨fun h1 => ?_, fun h1 h2 => ?_, fun h1 h2 => ?_, ?_⟩
  · simp [resolveBackend, resolveLoop, probesMade, candidateUrls, h1]
  · simp [resolveBackend, resolveLoop, probesMade, candidateUrls, h1, h2]
  · simp [resolveBackend, resolveLoop, probesMade, candidateUrls, h1, h2]
  · by_cases h1 : probeIsSuccess (probe BackendConfig.RENDER_URL BackendConfig.TIMEOUT)
    · exact ⟨1, by simp [probesMade, candidateUrls, h1]⟩
    · exact ⟨2, by simp [probesMade, candidateUrls, h1]⟩

/-- A probe oracle under which the remote candidate is unreachable and the
local one answers 200. -/
def localOnlyProbe : String → Nat → ProbeOutcome :=
  fun url _ => if url == BackendConfig.LOCAL_URL then .ok 200 else .err "connect ECONNREFUSED"

/-- Witness for C1: with the remote candidate down and the local one healthy,
resolution selects the local url after probing both candidates in order. -/
theorem backend_locator_sequential_first_success_witness :
    resolveBackend localOnlyProbe =
      .ok { baseUrl := some BackendConfig.LOCAL_URL, isInit := true } ∧
    probesMade localOnlyProbe candidateUrls =
      [(BackendConfig.RENDER_URL, BackendConfig.TIMEOUT),
       (BackendConfig.LOCAL_URL, BackendConfig.TIMEOUT)] :=
  (backend_locator_sequential_first_success localOnlyProbe).2.1
    (by decide) (by decide)

/-- Counterexample for C4: the download-package assembly call
(`BackendProcessor.prepareDownloadPackage`) runs with a 15x timeout, not the
claimed 20x. -/
theorem package_prep_timeout_not_twentyfold :
    (prepareDownloadPackageRequest "req").timeoutMs = BackendConfig.TIMEOUT * 15 ∧
    ¬ (prepareDownloadPackageRequest "req").timeoutMs = BackendConfig.TIMEOUT * 20 := by
  constructor
  · rfl
  · decide

/-- Claim C4 (amended): relative to the base timeout, batch submissions use
a 10x timeout, archive (zip) submissions a 20x timeout, download-package
assembly a 15x timeout, the prepared-package artifact download a 10x
timeout, legacy batch-results downloads a 5x timeout, and model-asset
downloads a 3x timeout. -/
theorem timeout_multipliers_amended
    (present : String → Bool) (paths : List String)
    (zipPath body zp fn fn2 url : String) (o oz : JsOptions) (r rz : HttpRequest)
    (hb : processBatchRequest present paths o = .ok r)
    (hz : processBatchZipRequest present zipPath oz = .ok rz) :
    r.timeoutMs = BackendConfig.TIMEOUT * 10 ∧
    rz.timeoutMs = BackendConfig.TIMEOUT * 20 ∧
    (prepareDownloadPackageRequest body).timeoutMs = BackendConfig.TIMEOUT * 15 ∧
    (downloadPreparedPackageRequest zp fn).timeoutMs = BackendConfig.TIMEOUT * 10 ∧
    (downloadBatchResultsRequest fn2).timeoutMs = BackendConfig.TIMEOUT * 5 ∧
    (modelAssetDownloadRequest url).timeoutMs = BackendConfig.TIMEOUT * 3 := by
  refine ⟨?_, ?_, rfl, rfl, rfl, rfl⟩
  · unfold processBatchRequest at hb
    cases hq : batchRouteFields (effectiveType o) o with
    | error e => rw [hq] at hb; cases hb
    | ok p =>
      obtain ⟨ep, fields⟩ := p
      rw [hq] at hb
      cases hb
      rfl
  · unfold processBatchZipRequest at hz
    cases hpz : present zipPath with
    | false => rw [hpz] at hz; cases hz
    | true =>
      rw [hpz] at hz
      simp only [Bool.not_true, Bool.false_eq_true, if_false] at hz
      cases hq : zipRouteFields (effectiveType oz) oz with
      | error e => rw [hq] at hz; cases hz
      | ok p =>
        obtain ⟨ep, fields⟩ := p
        rw [hq] at hz
        cases hz
        rfl

/-- Witness for C4 (amended): all six timeouts evaluated on concrete
requests. -/
theorem timeout_multipliers_amended_witness :
    processBatchRequest (fun _ => true) [] { otype := some "yolo" } =
      .ok { endpoint := "/api/batch-yolo",
            parts := [("confidence_threshold", .field (.num 0.5)),
                      ("max_workers", .field (.natv 4))],
            timeoutMs := BackendConfig.TIMEOUT * 10 } ∧
    processBatchZipRequest (fun _ => true) "a.zip" { otype := some "yolo" } =
      .ok { endpoint := "/api/batch-yolo",
            parts := [("zip_file", .fileStream "a.zip"),
                      ("confidence_threshold", .field (.num 0.5)),
                      ("max_workers", .field (.natv 4))],
            timeoutMs := BackendConfig.TIMEOUT * 20 } ∧
    (prepareDownloadPackageRequest "b").timeoutMs = BackendConfig.TIMEOUT * 15 ∧
    (downloadPreparedPackageRequest "p" "f").timeoutMs = BackendConfig.TIMEOUT * 10 ∧
    (downloadBatchResultsRequest "f2").timeoutMs = BackendConfig.TIMEOUT * 5 ∧
    (modelAssetDownloadRequest "u").timeoutMs = BackendConfig.TIMEOUT * 3 := by
  have h := timeout_multipliers_amended (fun _ => true) [] "a.zip" "b" "p" "f" "f2" "u"
    { otype := some "yolo" } { otype := some "yolo" } _ _ rfl rfl
  exact ⟨rfl, rfl, h.2.2.1, h.2.2.2.1, h.2.2.2.2.1, h.2.2.2.2.2⟩

/-- Helper: monotonicity of the rounded upload percentage in the byte count. -/
theorem uploadPercent_mono (t : Nat) {a b : Nat} (h : a ≤ b) :
    uploadPercent a t ≤ uploadPercent b t := by
  unfold uploadPercent
  have h2 : a * 100 * 2 + t ≤ b * 100 * 2 + t := by omega
  exact Nat.div_le_div_right h2

/-- Helper: the rounded upload percentage never exceeds 100 while the byte
count stays within the total. -/
theorem uploadPercent_le_100 {l t : Nat} (hpos : 0 < t) (h : l ≤ t) :
    uploadPercent l t ≤ 100 := by
  unfold uploadPercent
  have h2 : l * 100 * 2 + t < 101 * (2 * t) := by omega
  have h3 := (Nat.div_lt_iff_lt_mul (by omega : 0 < 2 * t)).mpr h2
  exact Nat.le_of_lt_succ h3

/-- Claim C6: for a single submission, if the uploaded-byte counts reported
by the transport are non-decreasing and bounded by the fixed positive total,
the percent values of the ProgressEvents emitted by both upload-progress
callbacks (batch and archive) are non-decreasing and all lie between 0 and
100 (they are naturals, so 0 is a lower bound by construction). -/
theorem progress_monotone_bounded (total : Nat) (loadeds : List Nat)
    (hpos : 0 < total) (hmono : loadeds.Chain' (· ≤ ·))
    (hbound : ∀ l ∈ loadeds, l ≤ total) :
    ((loadeds.map (fun l => (onUploadProgressBatch l total).progress)).Chain' (· ≤ ·) ∧
      ∀ p ∈ loadeds.map (fun l => (onUploadProgressBatch l total).progress), p ≤ 100) ∧
    ((loadeds.map (fun l => (onUploadProgressZip l total).progress)).Chain' (· ≤ ·) ∧
      ∀ p ∈ loadeds.map (fun l => (onUploadProgressZip l total).progress), p ≤ 100) := by
  have hchain : (loadeds.map (fun l => uploadPercent l total)).Chain' (· ≤ ·) :=
    List.chain'_map_of_chain' _ (fun a b hab => uploadPercent_mono total hab) hmono
  have hle : ∀ p ∈ loadeds.map (fun l => uploadPercent l total), p ≤ 100 := by
    intro p hp
    rw [List.mem_map] at hp
    obtain ⟨l, hl, rfl⟩ := hp
    exact uploadPercent_le_100 hpos (hbound l hl)
  exact ⟨⟨hchain, hle⟩, ⟨hchain, hle⟩⟩

/-- Witness for C6: a concrete three-event upload over a 10-byte total. -/
theorem progress_monotone_bounded_witness :
    (0 < 10 ∧ [0, 5, 10].Chain' (· ≤ ·) ∧ ∀ l ∈ [0, 5, 10], l ≤ 10) ∧
    (([0, 5, 10].map (fun l => (onUploadProgressBatch l 10).progress)).Chain' (· ≤ ·) ∧
      ∀ p ∈ [0, 5, 10].map (fun l => (onUploadProgressBatch l 10).progress), p ≤ 100) :=
  ⟨⟨by decide, by norm_num [List.chain'_cons, List.chain'_singleton], by decide⟩,
    (progress_monotone_bounded 10 [0, 5, 10] (by decide)
      (by norm_num [List.chain'_cons, List.chain'_singleton]) (by decide)).1⟩

/-- Helper: the per-route option fields of a zip submission are all plain
text fields, never in-memory buffers. -/
theorem zipRouteFields_no_buffer (t : String) (o : JsOptions) (ep : String)
    (fields : List (String × FormPart))
    (h : zipRouteFields t o = .ok (ep, fields)) :
    ∀ p ∈ fields, isBufferPart p.2 = false := by
  unfold zipRouteFields at h
  split at h
  · cases h; simp [isBufferPart]
  · split at h
    · cases h; simp [isBufferPart]
    · split at h
      · cases h; simp [isBufferPart]
      · split at h
        · cases h; simp [isBufferPart]
        · cases h

/-- Claim C9: every archive submission the transport client assembles (for
any archive path, any options, hence in particular any size up to the
configured `MAX_ZIP_SIZE` ceiling of 200GB) attaches the archive as a
`fs.createReadStream` chunked read-stream part — appended first — and no
part of the request is a wholesale in-memory buffer. -/
theorem archive_upload_streamed
    (present : String → Bool) (zipFilePath : String) (o : JsOptions)
    (r : HttpRequest)
    (h : processBatchZipRequest present zipFilePath o = .ok r) :
    r.parts.head? = some ("zip_file", FormPart.fileStream zipFilePath) ∧
    ∀ p ∈ r.parts, isBufferPart p.2 = false := by
  unfold processBatchZipRequest at h
  cases hpz : present zipFilePath with
  | false => rw [hpz] at h; cases h
  | true =>
    rw [hpz] at h
    simp only [Bool.not_true, Bool.false_eq_true, if_false] at h
    cases hq : zipRouteFields (effectiveType o) o with
    | error e => rw [hq] at h; cases h
    | ok p =>
      obtain ⟨ep, fields⟩ := p
      rw [hq] at h
      cases h
      refine ⟨rfl, ?_⟩
      intro part hpart
      simp only [List.mem_cons, List.mem_append, List.mem_singleton,
        List.mem_nil_iff, or_false] at hpart
      rcases hpart with rfl | hpart | rfl
      · rfl
      · exact zipRouteFields_no_buffer _ _ _ _ hq part hpart
      · rfl

/-- Witness for C9: the concrete archive request for a yolo-type zip
submission streams the archive. -/
theorem archive_upload_streamed_witness :
    processBatchZipRequest (fun _ => true) "batch.zip" { otype := some "combined" } =
      .ok { endpoint := "/api/batch-combined",
            parts := [("zip_file", .fileStream "batch.zip"),
                      ("confidence_threshold", .field (.num 0.5)),
                      ("siamese_threshold", .field (.num 0.85)),
                      ("enable_yolo_detection", .field (.boolv true)),
                      ("enable_siamese_comparison", .field (.boolv true)),
                      ("max_workers", .field (.natv 4))],
            timeoutMs := BackendConfig.TIMEOUT * 20 } ∧
    ([("zip_file", FormPart.fileStream "batch.zip"),
      ("confidence_threshold", FormPart.field (.num 0.5)),
      ("siamese_threshold", FormPart.field (.num 0.85)),
      ("enable_yolo_detection", FormPart.field (.boolv true)),
      ("enable_siamese_comparison", FormPart.field (.boolv true)),
      ("max_workers", FormPart.field (.natv 4))].head? =
        some ("zip_file", FormPart.fileStream "batch.zip")) ∧
    ∀ p ∈ [("zip_file", FormPart.fileStream "batch.zip"),
      ("confidence_threshold", FormPart.field (.num 0.5)),
      ("siamese_threshold", FormPart.field (.num 0.85)),
      ("enable_yolo_detection", FormPart.field (.boolv true)),
      ("enable_siamese_comparison", FormPart.field (.boolv true)),
      ("max_workers", FormPart.field (.natv 4))], isBufferPart p.2 = false :=
  ⟨rfl,
    (archive_upload_streamed (fun _ => true) "batch.zip" { otype := some "combined" } _ rfl).1,
    (archive_upload_streamed (fun _ => true) "batch.zip" { otype := some "combined" } _ rfl).2⟩

/-- Claim C10 (implicit): option defaulting swallows explicit zero values —
on both the multi-image batch path and the archive path, a supplied
`confidence_threshold = 0`, `siamese_threshold = 0`,
`similarity_threshold = 0` or `max_workers = 0` is replaced in the outgoing
form by the default (0.5, 0.85, 0.85 or 4 respectively), because `||`
treats 0 as absent; any supplied non-zero value is forwarded unchanged. -/
theorem zero_options_swallowed (present : String → Bool) (paths : List String)
    (zipPath : String) (c s sim : ℚ) (w : Nat) :
    (processBatchRequest present paths
        { otype := some "combined", confidence_threshold := some c,
          siamese_threshold := some s, similarity_threshold := some sim,
          max_workers := some w } =
      .ok { endpoint := "/api/batch-combined",
            parts := (paths.filter present).map
                (fun p => ("images", FormPart.fileStream p)) ++
              [("confidence_threshold", .field (.num (if c = 0 then 0.5 else c))),
               ("siamese_threshold", .field (.num (if s = 0 then 0.85 else s))),
               ("enable_yolo_detection", .field (.boolv true)),
               ("enable_siamese_comparison", .field (.boolv true)),
               ("max_workers", .field (.natv (if w = 0 then 4 else w)))],
            timeoutMs := BackendConfig.TIMEOUT * 10 }) ∧
    (processBatchRequest present paths
        { otype := some "individual-elephants", confidence_threshold := some c,
          siamese_threshold := some s, similarity_threshold := some sim,
          max_workers := some w } =
      .ok { endpoint := "/api/batch-individual-elephants",
            parts := (paths.filter present).map
                (fun p => ("images", FormPart.fileStream p)) ++
              [("confidence_threshold", .field (.num (if c = 0 then 0.5 else c))),
               ("similarity_threshold", .field (.num (if sim = 0 then 0.85 else sim))),
               ("max_workers", .field (.natv (if w = 0 then 4 else w)))],
            timeoutMs := BackendConfig.TIMEOUT * 10 }) ∧
    (processBatchZipRequest (fun _ => true) zipPath
        { otype := some "combined", confidence_threshold := some c,
          siamese_threshold := some s, similarity_threshold := some sim,
          max_workers := some w } =
      .ok { endpoint := "/api/batch-combined",
            parts := [("zip_file", .fileStream zipPath),
              ("confidence_threshold", .field (.num (if c = 0 then 0.5 else c))),
              ("siamese_threshold", .field (.num (if s = 0 then 0.85 else s))),
              ("enable_yolo_detection", .field (.boolv true)),
              ("enable_siamese_comparison", .field (.boolv true)),
              ("max_workers", .field (.natv (if w = 0 then 4 else w)))],
            timeoutMs := BackendConfig.TIMEOUT * 20 }) ∧
    (processBatchZipRequest (fun _ => true) zipPath
        { otype := some "individual_elephants", confidence_threshold := some c,
          siamese_threshold := some s, similarity_threshold := some sim,
          max_workers := some w } =
      .ok { endpoint := "/api/batch-individual-elephants",
            parts := [("zip_file", .fileStream zipPath),
              ("confidence_threshold", .field (.num (if c = 0 then 0.5 else c))),
              ("similarity_threshold", .field (.num (if sim = 0 then 0.85 else sim))),
              ("max_workers", .field (.natv (if w = 0 then 4 else w)))],
            timeoutMs := BackendConfig.TIMEOUT * 20 }) :=
  ⟨rfl, rfl, rfl, rfl⟩

/-- Claim C2: whenever the selected-file set contains at least one archive
entry and at least one image entry, the hosted dispatch path submits only
the first archive's path over the bridge (the `viaZip` shape carries no
image), and the plain-page dispatch path attaches only that archive's file
object — its parts are exactly the four parameters plus the `zip_file`
upload, with no `images` entry. -/
theorem archive_precedence_both_paths (files : List SelectedFile) (pt : String)
    (o : WebOptions) (z : SelectedFile) (zs : List SelectedFile) (ep : String)
    (hz : files.filter (fun f => f.ftype == "zip") = z :: zs)
    (_himg : files.filter (fun f => f.ftype == "image") ≠ [])
    (hep : webEndpointFor pt = some ep)
    (hfo : z.hasFileObject = true) :
    processWithElectron files = .viaZip z.path ∧
    processWithWebAPI pt o files =
      .ok { endpoint := ep,
            parts := webParamParts o ++ [("zip_file", .upload z.name)] } := by
  constructor
  · simp only [processWithElectron, hz]
  · simp only [processWithWebAPI, hep, hz, hfo, if_true]

/-- Witness for C2: one image and one archive selected; both paths submit
only the archive. -/
theorem archive_precedence_both_paths_witness :
    processWithElectron
        [{ name := "a.jpg", ftype := "image", path := "C:/a.jpg", hasFileObject := true },
         { name := "b.zip", ftype := "zip", path := "C:/b.zip", hasFileObject := true }] =
      .viaZip "C:/b.zip" ∧
    processWithWebAPI "combined"
        { confidence_threshold := 0.5, siamese_threshold := 0.85,
          similarity_threshold := 0.85, max_workers := 4 }
        [{ name := "a.jpg", ftype := "image", path := "C:/a.jpg", hasFileObject := true },
         { name := "b.zip", ftype := "zip", path := "C:/b.zip", hasFileObject := true }] =
      .ok { endpoint := "/api/batch-combined",
            parts := webParamParts
                { confidence_threshold := 0.5, siamese_threshold := 0.85,
                  similarity_threshold := 0.85, max_workers := 4 } ++
              [("zip_file", .upload "b.zip")] } :=
  archive_precedence_both_paths
    [{ name := "a.jpg", ftype := "image", path := "C:/a.jpg", hasFileObject := true },
     { name := "b.zip", ftype := "zip", path := "C:/b.zip", hasFileObject := true }]
    "combined"
    { confidence_threshold := 0.5, siamese_threshold := 0.85,
      similarity_threshold := 0.85, max_workers := 4 }
    { name := "b.zip", ftype := "zip", path := "C:/b.zip", hasFileObject := true } []
    "/api/batch-combined" (by decide) (by decide) (by decide) (by decide)

/-- Counterexample for C3: invoked with a constructed but unconnected
backend processor, the `download-file-to-downloads` handler does not fail
with the backend-not-connected error — it proceeds straight to the
transport call (second component `true`). -/
theorem download_handler_skips_connection_check :
    connected (some { baseUrl := none, isInit := false }) = false ∧
    (handleDownloadFileToDownloads (some { baseUrl := none, isInit := false })
        (ipcFail "Network Error")).2 = true ∧
    (handleDownloadFileToDownloads (some { baseUrl := none, isInit := false })
        (ipcFail "Network Error")).1.error ≠ some notConnectedMsg := by
  refine ⟨rfl, rfl, ?_⟩
  decide

/-- Claim C3 (amended): `process-file`, `process-batch`, `process-zip` and
`prepare-download-package` first validate that a backend connection exists
and fail with the backend-not-connected error — without reaching the
transport layer — otherwise; `download-file-to-downloads` performs no such
validation and issues its transport call whenever the processor object
exists.  All five operations return a structured `{success, data}` /
`{success: false, error}` value for every input and every transport-layer
failure; no exception crosses the host/UI boundary. -/
theorem host_error_boundary_amended (proc : Option ProcState) (e d : String)
    (mr : IpcResp) :
    (connected proc = false →
      handleProcessFile proc (.error e) = (ipcFail notConnectedMsg, false) ∧
      handleProcessBatch proc (.error e) = (ipcFail notConnectedMsg, false) ∧
      handleProcessZip proc (.error e) = (ipcFail notConnectedMsg, false) ∧
      handlePrepareDownloadPackage proc mr = (ipcFail notConnectedMsg, false)) ∧
    (connected proc = true →
      (handleProcessFile proc (.error e)).1 = ipcFail e ∧
      (handleProcessBatch proc (.error e)).1 = ipcFail e ∧
      (handleProcessZip proc (.error e)).1 = ipcFail e ∧
      (handleProcessFile proc (.ok d)).1 = ipcOk d ∧
      (handlePrepareDownloadPackage proc mr).1 = mr) ∧
    ((handleDownloadFileToDownloads proc mr).1 = mr ∨
      (handleDownloadFileToDownloads proc mr).1 = ipcFail nullDerefMsg) ∧
    (∀ st : ProcState, handleDownloadFileToDownloads (some st) mr = (mr, true)) ∧
    (handleDownloadFileToDownloads none mr = (ipcFail nullDerefMsg, false)) := by
  refine ⟨fun hc => ?_, fun hc => ?_, ?_, fun st => rfl, rfl⟩
  · simp [handleProcessFile, handleProcessBatch, handleProcessZip,
      handlePrepareDownloadPackage, hc]
  · simp [handleProcessFile, handleProcessBatch, handleProcessZip,
      handlePrepareDownloadPackage, hc]
  · cases proc with
    | none => exact Or.inr rfl
    | some st => exact Or.inl rfl

/-- Witness for C3 (amended): with no processor constructed, each guarded
handler fails with the backend-not-connected envelope and never reaches the
transport layer. -/
theorem host_error_boundary_amended_witness :
    handleProcessFile none (.error "boom") = (ipcFail notConnectedMsg, false) ∧
    handleProcessBatch none (.error "boom") = (ipcFail notConnectedMsg, false) ∧
    handleProcessZip none (.error "boom") = (ipcFail notConnectedMsg, false) ∧
    handlePrepareDownloadPackage none (ipcFail "x") = (ipcFail notConnectedMsg, false) ∧
    ((handleDownloadFileToDownloads none (ipcFail "x")).1 = ipcFail "x" ∨
      (handleDownloadFileToDownloads none (ipcFail "x")).1 = ipcFail nullDerefMsg) ∧
    handleDownloadFileToDownloads (some { baseUrl := none, isInit := false })
      (ipcFail "x") = (ipcFail "x", true) := by
  have h := host_error_boundary_amended none "boom" "d" (ipcFail "x")
  have h1 := h.1 rfl
  exact ⟨h1.1, h1.2.1, h1.2.2.1, h1.2.2.2, h.2.2.1,
    h.2.2.2.1 { baseUrl := none, isInit := false }⟩

/-- Claim C5: `processFiles` enters the processing cycle exactly when the
pending-file set is non-empty, no cycle is active, and the app is ready and
not offline; a rejected invocation returns with the state unchanged, and in
particular a second submission while a cycle is active is rejected, so two
cycles are never concurrently active. -/
theorem processing_entry_guard (s : UiState) (o : DispatchOutcome) :
    ((processFiles s o).2 = true ↔
      (s.selectedFiles ≠ [] ∧ s.isProcessing = false ∧
        s.appReady = true ∧ s.offlineMode = false)) ∧
    ((processFiles s o).2 = false → (processFiles s o).1 = s) ∧
    (s.isProcessing = true → processFiles s o = (s, false)) := by
  obtain ⟨files, isp, ready, off, lr, es⟩ := s
  rcases o with m | ⟨succ, err, dd⟩ | _ <;>
    cases files <;> cases isp <;> cases ready <;> cases off <;>
      first
        | (cases succ <;> simp [processFiles])
        | simp [processFiles]

/-- Witness for C5: a submission while a cycle is already active is
rejected with the state unchanged. -/
theorem processing_entry_guard_witness :
    processFiles
      { selectedFiles :=
          [{ name := "a.jpg", ftype := "image", path := "C:/a.jpg", hasFileObject := true }],
        isProcessing := true, appReady := true, offlineMode := false,
        lastResults := none, errorShown := none }
      .noResult =
    ({ selectedFiles :=
          [{ name := "a.jpg", ftype := "image", path := "C:/a.jpg", hasFileObject := true }],
        isProcessing := true, appReady := true, offlineMode := false,
        lastResults := none, errorShown := none }, false) :=
  (processing_entry_guard _ .noResult).2.2 rfl

/-- Claim C8: for every failure during an entered processing cycle — a
thrown dispatch/transport error, a `{success: false}` result, or a missing
result — `processFiles` leaves the selected-file set exactly as it was
(inputs preserved for retry), clears the processing flag, and surfaces the
error message, embedded verbatim after the fixed `'Processing failed: '`
notice. -/
theorem failure_atomicity_process_files (s : UiState) (o : DispatchOutcome)
    (m : String)
    (hfiles : s.selectedFiles ≠ []) (hproc : s.isProcessing = false)
    (hready : s.appReady = true) (hoff : s.offlineMode = false)
    (hfail : failureMsg o = some m) :
    (processFiles s o).1.selectedFiles = s.selectedFiles ∧
    (processFiles s o).1.isProcessing = false ∧
    (processFiles s o).1.errorShown = some ("Processing failed: " ++ m) := by
  have hg : ¬ ((s.selectedFiles.length == 0 || s.isProcessing || !s.appReady ||
      s.offlineMode) = true) := by
    simp [hproc, hready, hoff, List.length_eq_zero, hfiles]
  unfold processFiles
  rw [if_neg hg]
  cases o with
  | threw mm =>
    simp only [failureMsg, Option.some.injEq] at hfail
    subst hfail
    exact ⟨rfl, rfl, rfl⟩
  | res succ err dd =>
    cases succ
    · simp only [failureMsg, Option.some.injEq] at hfail
      subst hfail
      exact ⟨rfl, rfl, rfl⟩
    · simp [failureMsg] at hfail
  | noResult =>
    simp only [failureMsg, Option.some.injEq] at hfail
    subst hfail
    exact ⟨rfl, rfl, rfl⟩

/-- Witness for C8: a concrete failing cycle preserves the selected file,
clears the flag, and shows the message. -/
theorem failure_atomicity_process_files_witness :
    (processFiles
        { selectedFiles :=
            [{ name := "a.jpg", ftype := "image", path := "C:/a.jpg", hasFileObject := true }],
          isProcessing := false, appReady := true, offlineMode := false,
          lastResults := none, errorShown := none }
        (.threw "Network Error")).1.selectedFiles =
      [{ name := "a.jpg", ftype := "image", path := "C:/a.jpg", hasFileObject := true }] ∧
    (processFiles
        { selectedFiles :=
            [{ name := "a.jpg", ftype := "image", path := "C:/a.jpg", hasFileObject := true }],
          isProcessing := false, appReady := true, offlineMode := false,
          lastResults := none, errorShown := none }
        (.threw "Network Error")).1.isProcessing = false ∧
    (processFiles
        { selectedFiles :=
            [{ name := "a.jpg", ftype := "image", path := "C:/a.jpg", hasFileObject := true }],
          isProcessing := false, appReady := true, offlineMode := false,
          lastResults := none, errorShown := none }
        (.threw "Network Error")).1.errorShown =
      some ("Processing failed: " ++ "Network Error") :=
  failure_atomicity_process_files _ (.threw "Network Error") "Network Error"
    (by decide) rfl rfl rfl rfl

/-- Helper: whatever name the dedup loop settles on is absent from the
pre-existing directory listing, so nothing is overwritten. -/
theorem dedupLoop_not_mem (existing : List String) (name ext : String) :
    ∀ fuel counter r, dedupLoop existing name ext counter fuel = some r →
      r ∉ existing := by
  intro fuel
  induction fuel with
  | zero => intro counter r h; cases h
  | succ k ih =>
    intro counter r h
    unfold dedupLoop at h
    split at h
    · exact ih (counter + 1) r h
    · cases h; assumption

/-- Helper: the dedup loop returns the candidate for the first free counter
at or above its starting counter; every smaller candidate collides. -/
theorem dedupLoop_spec (existing : List String) (name ext : String) :
    ∀ fuel counter r, dedupLoop existing name ext counter fuel = some r →
      ∃ n, counter ≤ n ∧ r = dedupCandidate name ext n ∧
        ∀ m, counter ≤ m → m < n → dedupCandidate name ext m ∈ existing := by
  intro fuel
  induction fuel with
  | zero => intro c r h; cases h
  | succ k ih =>
    intro c r h
    unfold dedupLoop at h
    split at h
    · obtain ⟨n, hcn, hr, hall⟩ := ih (c + 1) r h
      refine ⟨n, by omega, hr, fun m hcm hmn => ?_⟩
      by_cases hmc : m = c
      · subst hmc; assumption
      · exact hall m (by omega) hmn
    · cases h
      exact ⟨c, le_refl c, rfl, fun m hcm hmn => absurd hcm (by omega)⟩

/-- Claim C7: downloading `"result.zip"` into a directory already holding
`"result.zip"` writes `"result_1.zip"`, a further copy writes
`"result_2.zip"`; in general the suffix `_n` is inserted before the
extension, with `n` incremented from 1 until a free name is found, and a
returned name never collides with a pre-existing file. -/
theorem download_name_dedup :
    (finalDownloadName ["result.zip"] "result.zip" 2 = some "result_1.zip") ∧
    (finalDownloadName ["result.zip", "result_1.zip"] "result.zip" 3 =
      some "result_2.zip") ∧
    (∀ existing filename fuel r, finalDownloadName existing filename fuel = some r →
      r ∉ existing) ∧
    (∀ existing filename fuel r, filename ∈ existing →
      finalDownloadName existing filename fuel = some r →
      ∃ n, 1 ≤ n ∧
        r = dedupCandidate (basenameNoExt filename) (extname filename) n ∧
        ∀ m, 1 ≤ m → m < n →
          dedupCandidate (basenameNoExt filename) (extname filename) m ∈ existing) := by
  refine ⟨by decide, by decide, ?_, ?_⟩
  · intro existing filename fuel r h
    unfold finalDownloadName at h
    split at h
    · exact dedupLoop_not_mem existing _ _ fuel 1 r h
    · cases h; assumption
  · intro existing filename fuel r hmem h
    unfold finalDownloadName at h
    rw [if_pos hmem] at h
    exact dedupLoop_spec existing _ _ fuel 1 r h

/-- Witness for C7: the first collision resolves to `"result_1.zip"`, which
does not overwrite the existing file. -/
theorem download_name_dedup_witness :
    finalDownloadName ["result.zip"] "result.zip" 2 = some "result_1.zip" ∧
    "result_1.zip" ∉ ["result.zip"] :=
  ⟨by decide,
    download_name_dedup.2.2.1 ["result.zip"] "result.zip" 2 "result_1.zip" (by decide)⟩

end Airavat
